import Mathlib

/-!
Shallow embedding of the inspiration-board backend
(Flask + SQLAlchemy app: models `Board` and `Card`, route utilities
`validate_models` / `create_model`, and the board/card route handlers).

Python integers are modelled as `Int`, the database session as an explicit
`DBState` record holding the board and card tables together with the
autoincrement counters, and a Flask response as a status code plus a body.
-/

namespace InspirationBoard

/-- A persisted row of the `board` table (`app/models/board.py`). -/
structure Board where
  board_id : Int
  title : String
  owner : String
deriving Repr, DecidableEq

/-- A persisted row of the `card` table (`app/models/card.py`). -/
structure Card where
  card_id : Int
  message : String
  likes_count : Int
  board_id : Int
deriving Repr, DecidableEq

/-- The database state: the two tables plus the autoincrement counters the
store uses to assign fresh primary keys on insert. -/
structure DBState where
  boards : List Board
  cards : List Card
  next_board_id : Int
  next_card_id : Int
deriving Repr, DecidableEq

/-- The cards owned by a board: the SQLAlchemy relationship
`Board.cards` (all cards whose foreign key equals the board's PK). -/
def boardCards (db : DBState) (b : Board) : List Card :=
  db.cards.filter (fun c => c.board_id == b.board_id)

/-- Result of `Card.to_dict` (`app/models/card.py`). -/
structure CardDict where
  id : Int
  message : String
  likes_count : Int
  board_id : Int
deriving Repr, DecidableEq

/-- Result of `Board.to_dict` (`app/models/board.py`): the `cards` key is
only present (`some`) when the board's card list is non-empty. -/
structure BoardDict where
  id : Int
  title : String
  owner : String
  cards : Option (List CardDict)
deriving Repr, DecidableEq

/-- `Card.to_dict` from `app/models/card.py`. -/
def Card.to_dict (c : Card) : CardDict :=
  { id := c.card_id
    message := c.message
    likes_count := c.likes_count
    board_id := c.board_id }

/-- `Board.to_dict` from `app/models/board.py`: `{id, title, owner}`, and a
`cards` key exactly when `self.cards` is truthy (non-empty). -/
def Board.to_dict (db : DBState) (b : Board) : BoardDict :=
  { id := b.board_id
    title := b.title
    owner := b.owner
    cards :=
      if (boardCards db b).isEmpty then none
      else some ((boardCards db b).map Card.to_dict) }

/-- A JSON request body for card creation: each key either absent or
present with a value (`message`, `likes_count`, `board_id`). -/
structure CardData where
  message : Option String
  likes_count : Option Int
  board_id : Option Int
deriving Repr, DecidableEq

/-- The fields of an unsaved card built by `Card.from_dict` (the store has
not yet assigned a primary key). -/
structure NewCard where
  message : String
  likes_count : Int
  board_id : Int
deriving Repr, DecidableEq

/-- `Card.from_dict` from `app/models/card.py`: requires `message` and
`board_id` (a missing key raises `KeyError`, modelled as `.error` carrying
the missing key's name); `likes_count` defaults to `0`.  Python evaluates
`card_data["message"]` first, so a body missing both keys fails on
`"message"`. -/
def Card.from_dict (d : CardData) : Except String NewCard :=
  match d.message with
  | none => .error "message"
  | some m =>
    match d.board_id with
    | none => .error "board_id"
    | some bid => .ok { message := m, likes_count := d.likes_count.getD 0, board_id := bid }

/-- `Board.safe_delete` from `app/models/board.py`.  Returns the resulting
database state and, when the guard fires, the `ValueError` message (in which
case the state is unchanged: the exception is raised before any delete). -/
def Board.safe_delete (db : DBState) (b : Board) (force : Bool) : DBState × Option String :=
  let cs := boardCards db b
  if !force && !cs.isEmpty then
    (db, some ("Cannot delete board '" ++ b.title ++ "' because it has "
      ++ toString cs.length
      ++ " card(s). Use force=True to delete the board and all its cards."))
  else
    ({ db with
        cards := db.cards.filter (fun c => !(c.board_id == b.board_id))
        boards := db.boards.filter (fun x => !(x.board_id == b.board_id)) },
      none)

/-! ### Python `int(...)` on strings

`validate_models` runs `model_id = int(model_id)` on the raw path segment.
Python's `int` on a string strips leading/trailing whitespace, accepts an
optional single `+`/`-` sign, then a non-empty run of decimal digits in
which single underscores may separate digits. -/

/-- Whitespace accepted by Python's `int` around the numeral. -/
def isPyWS (c : Char) : Bool :=
  c == ' ' || c == '\t' || c == '\n' || c == '\r'

/-- Accumulates the value of a digit run, allowing a single underscore
between two digits (`1_000`), as Python's `int` does. -/
def digitsVal (acc : Nat) : List Char → Option Nat
  | [] => some acc
  | c :: cs =>
    if c.isDigit then digitsVal (acc * 10 + (c.toNat - 48)) cs
    else if c == '_' then
      match cs with
      | [] => none
      | c2 :: cs2 =>
        if c2.isDigit then digitsVal (acc * 10 + (c2.toNat - 48)) cs2 else none
    else none

/-- A non-empty digit run: the first character must be a digit. -/
def digitRun : List Char → Option Nat
  | [] => none
  | c :: cs => if c.isDigit then digitsVal (c.toNat - 48) cs else none

/-- Python's `int(s)` for a string `s`: `some n` when the conversion
succeeds, `none` when it raises `ValueError`. -/
def pyInt (s : String) : Option Int :=
  let l := ((s.data.dropWhile isPyWS).reverse.dropWhile isPyWS).reverse
  match l with
  | '-' :: rest => (digitRun rest).map (fun n => -(n : Int))
  | '+' :: rest => (digitRun rest).map (fun n => (n : Int))
  | _ => (digitRun l).map (fun n => (n : Int))

/-! ### Route utilities (`app/routes/route_utilities.py`) -/

/-- The entity class passed to `validate_models` / `create_model`. -/
inductive Entity where
  | board
  | card
deriving Repr, DecidableEq

/-- `cls.__name__` for the two model classes. -/
def Entity.clsName : Entity → String
  | .board => "Board"
  | .card => "Card"

/-- A loaded model returned by `validate_models`. -/
inductive Model where
  | board (b : Board)
  | card (c : Card)
deriving Repr, DecidableEq

/-- An aborting response: HTTP status plus the `{"message": ...}` body. -/
structure ErrResp where
  status : Nat
  message : String
deriving Repr, DecidableEq

/-- The primary-key lookup `db.session.scalar(select(cls).where(pk == id))`:
the column is chosen by the `cls.__name__ == "Board"` string dispatch. -/
def findModel (e : Entity) (n : Int) (db : DBState) : Option Model :=
  match e with
  | .board => (db.boards.find? (fun b => b.board_id == n)).map Model.board
  | .card => (db.cards.find? (fun c => c.card_id == n)).map Model.card

/-- `validate_models` from `app/routes/route_utilities.py`: parse the raw
id with `int(...)` (failure aborts 400 naming the raw string), then look
the entity up by primary key (absence aborts 404 naming the parsed id). -/
def validate_models (e : Entity) (raw : String) (db : DBState) :
    Except ErrResp Model :=
  match pyInt raw with
  | none => .error ⟨400, e.clsName ++ " with ID " ++ raw ++ " invalid."⟩
  | some n =>
    match findModel e n db with
    | none => .error ⟨404, e.clsName ++ " with ID " ++ toString n ++ " not found."⟩
    | some m => .ok m

/-- The body of an HTTP response from a handler. -/
inductive RespBody where
  | message (m : String)
  | cardDict (c : CardDict)
  | boardDict (b : BoardDict)
  | cardList (cs : List CardDict)
deriving Repr, DecidableEq

/-- A handler's outcome: HTTP status, response body, and the database
state after the request. -/
structure HttpResult where
  status : Nat
  body : RespBody
  db : DBState
deriving Repr, DecidableEq

/-- `create_model` from `app/routes/route_utilities.py`, instantiated at
`cls = Card`: `Card.from_dict` (a `KeyError` aborts 400 with the generic
`"Invalid data"` body), then `session.add` + `commit` (the store assigns
the next autoincrement id) and `201` with the new card's `to_dict`. -/
def create_model_card (d : CardData) (db : DBState) : HttpResult :=
  match Card.from_dict d with
  | .error _ => ⟨400, .message "Invalid data", db⟩
  | .ok nc =>
    let newCard : Card :=
      { card_id := db.next_card_id
        message := nc.message
        likes_count := nc.likes_count
        board_id := nc.board_id }
    ⟨201, .cardDict newCard.to_dict,
      { db with cards := db.cards ++ [newCard], next_card_id := db.next_card_id + 1 }⟩

/-! ### Route handlers (`app/routes/board_routes.py`, `app/routes/card_routes.py`) -/

/-- `POST /boards/<board_id>/cards` (`create_one_card` in
`app/routes/board_routes.py`): validate the path's board id, then create
the card from the request body.  The loaded board itself is unused — in
particular the body's `board_id` is never compared with the path id. -/
def create_one_card (raw : String) (body : CardData) (db : DBState) : HttpResult :=
  match validate_models .board raw db with
  | .error e => ⟨e.status, .message e.message, db⟩
  | .ok _ => create_model_card body db

/-- `session.delete(card)`: removes the row the loaded object denotes,
i.e. the first (unique, by the PK constraint) row with that id. -/
def removeFirstCard (cid : Int) : List Card → List Card
  | [] => []
  | c :: cs => if c.card_id == cid then cs else c :: removeFirstCard cid cs

/-- `card.likes_count += 1` on the loaded object: increments the first
(unique, by the PK constraint) row with that id. -/
def incLikes (cid : Int) : List Card → List Card
  | [] => []
  | c :: cs =>
    if c.card_id == cid then { c with likes_count := c.likes_count + 1 } :: cs
    else c :: incLikes cid cs

/-- `DELETE /cards/<card_id>` (`delete_card` in `app/routes/card_routes.py`):
validate the id, delete the row, commit, and answer 200 with
`{"message": f"Card {card_id} deleted successfully"}` — note the message
interpolates the raw path segment, not the parsed integer.  The `.board`
branch of the match is unreachable (`validate_models` with `Card` only ever
loads cards); it is mapped to a generic 500 as Flask would produce. -/
def delete_card (raw : String) (db : DBState) : HttpResult :=
  match validate_models .card raw db with
  | .error e => ⟨e.status, .message e.message, db⟩
  | .ok (.card c) =>
    ⟨200, .message ("Card " ++ raw ++ " deleted successfully"),
      { db with cards := removeFirstCard c.card_id db.cards }⟩
  | .ok (.board _) => ⟨500, .message "Internal Server Error", db⟩

/-- `PUT /cards/<card_id>/likes` (`update_card_likes` in
`app/routes/card_routes.py`): validate the id, increment `likes_count`,
commit, and answer 200 with the updated card's `to_dict`.  The `.board`
branch is unreachable, as in `delete_card`. -/
def update_card_likes (raw : String) (db : DBState) : HttpResult :=
  match validate_models .card raw db with
  | .error e => ⟨e.status, .message e.message, db⟩
  | .ok (.card c) =>
    ⟨200, .cardDict ⟨c.card_id, c.message, c.likes_count + 1, c.board_id⟩,
      { db with cards := incLikes c.card_id db.cards }⟩
  | .ok (.board _) => ⟨500, .message "Internal Server Error", db⟩

/-! ### Substring containment

`String.containsSub s sub` states that `sub` occurs contiguously in `s`;
used to phrase the guarantees on the `safe_delete` error text. -/

/-- `sub` is a contiguous substring of `s`. -/
def strContainsSub (s sub : String) : Prop :=
  ∃ a b : String, s = a ++ sub ++ b

deriving instance DecidableEq for Except

/-! ### Theorems -/

/-- C5: `validate_models` on a raw id that does not parse as an integer
aborts with 400 and body `"{Entity} with ID {raw} invalid."`; on a parsed
integer with no matching row it aborts with 404 and body
`"{Entity} with ID {id} not found."` (the parsed id, not the raw string);
otherwise it returns the matching entity. -/
theorem validate_models_spec (e : Entity) (raw : String) (db : DBState) :
    (pyInt raw = none →
      validate_models e raw db =
        .error ⟨400, e.clsName ++ " with ID " ++ raw ++ " invalid."⟩) ∧
    (∀ n, pyInt raw = some n → findModel e n db = none →
      validate_models e raw db =
        .error ⟨404, e.clsName ++ " with ID " ++ toString n ++ " not found."⟩) ∧
    (∀ n m, pyInt raw = some n → findModel e n db = some m →
      validate_models e raw db = .ok m) := by
  refine ⟨?_, ?_, ?_⟩
  · intro h
    simp [validate_models, h]
  · intro n h1 h2
    simp [validate_models, h1, h2]
  · intro n m h1 h2
    simp [validate_models, h1, h2]

/-- C5 witness: the three branches at concrete inputs. -/
theorem validate_models_spec_witness :
    pyInt "x" = none ∧
    validate_models .board "x" ⟨[], [], 1, 1⟩ =
      .error ⟨400, "Board with ID x invalid."⟩ ∧
    validate_models .card "5" ⟨[], [], 1, 1⟩ =
      .error ⟨404, "Card with ID 5 not found."⟩ ∧
    validate_models .board "1" ⟨[⟨1, "B", "O"⟩], [], 2, 1⟩ =
      .ok (.board ⟨1, "B", "O"⟩) := by
  refine ⟨by decide, ?_, ?_, ?_⟩
  · exact ((validate_models_spec .board "x" ⟨[], [], 1, 1⟩).1 (by decide)).trans (by decide)
  · exact ((validate_models_spec .card "5" ⟨[], [], 1, 1⟩).2.1 5
      (by decide) (by decide)).trans (by decide)
  · exact (validate_models_spec .board "1" ⟨[⟨1, "B", "O"⟩], [], 2, 1⟩).2.2 1
      (.board ⟨1, "B", "O"⟩) (by decide) (by decide)

/-- C10: whenever Python's `int` accepts the raw id (including signed and
whitespace-padded forms), `validate_models` treats it as well-formed: any
abort it produces is the 404 not-found response for the parsed integer,
never the 400 malformed response, and an absent row always yields that
404. -/
theorem validate_models_parsed_never_400 (e : Entity) (raw : String) (n : Int)
    (db : DBState) (hp : pyInt raw = some n) :
    (∀ r, validate_models e raw db = .error r →
      r = ⟨404, e.clsName ++ " with ID " ++ toString n ++ " not found."⟩ ∧
      findModel e n db = none) ∧
    (findModel e n db = none →
      validate_models e raw db =
        .error ⟨404, e.clsName ++ " with ID " ++ toString n ++ " not found."⟩) := by
  constructor
  · intro r hr
    cases hfind : findModel e n db with
    | none =>
      simp [validate_models, hp, hfind] at hr
      exact ⟨hr.symm, rfl⟩
    | some m =>
      simp [validate_models, hp, hfind] at hr
  · intro hfind
    simp [validate_models, hp, hfind]

/-- C10 witness: `"-3"`, `"+7"` and `" 5 "` all parse, and a negative id
with no matching row yields the 404 not-found response. -/
theorem validate_models_parsed_never_400_witness :
    pyInt "-3" = some (-3) ∧ pyInt "+7" = some 7 ∧ pyInt " 5 " = some 5 ∧
    validate_models .card "-3" ⟨[], [], 1, 1⟩ =
      .error ⟨404, "Card with ID -3 not found."⟩ := by
  refine ⟨by decide, by decide, by decide, ?_⟩
  exact ((validate_models_parsed_never_400 .card "-3" (-3) ⟨[], [], 1, 1⟩
    (by decide)).2 (by decide)).trans (by decide)

/-- C4: a `POST /boards/{id}/cards` whose path id parses but matches no
board answers 404 with the not-found body, and the database — in
particular the card table — is unchanged. -/
theorem create_card_missing_board_404 (raw : String) (body : CardData)
    (db : DBState) (n : Int)
    (hp : pyInt raw = some n)
    (hb : db.boards.find? (fun x => x.board_id == n) = none) :
    create_one_card raw body db =
      ⟨404, .message ("Board with ID " ++ toString n ++ " not found."), db⟩ := by
  simp only [create_one_card, validate_models, findModel, hp, hb]
  rw [show (Entity.board.clsName ++ " with ID " : String) = "Board with ID " from by decide]
  simp

/-- C4 witness: creating a card under board id 999 when only board 1
exists answers 404 and writes no card row. -/
theorem create_card_missing_board_404_witness :
    pyInt "999" = some 999 ∧
    (⟨[⟨1, "B", "O"⟩], [], 2, 1⟩ : DBState).boards.find?
      (fun x => x.board_id == 999) = none ∧
    create_one_card "999" ⟨some "m", none, some 1⟩ ⟨[⟨1, "B", "O"⟩], [], 2, 1⟩ =
      ⟨404, .message "Board with ID 999 not found.", ⟨[⟨1, "B", "O"⟩], [], 2, 1⟩⟩ := by
  refine ⟨by decide, by decide, ?_⟩
  exact (create_card_missing_board_404 "999" ⟨some "m", none, some 1⟩
    ⟨[⟨1, "B", "O"⟩], [], 2, 1⟩ 999 (by decide) (by decide)).trans (by decide)

/-- C2: when the path board id resolves to an existing board, the card
that is persisted (and echoed with 201) carries the `board_id` taken from
the request body — `bid` below is arbitrary and never compared with the
path's parsed id `n`. -/
theorem created_card_board_id_from_body (raw : String) (db : DBState) (n : Int)
    (b : Board) (m : String) (lk : Option Int) (bid : Int)
    (hp : pyInt raw = some n)
    (hb : db.boards.find? (fun x => x.board_id == n) = some b) :
    create_one_card raw ⟨some m, lk, some bid⟩ db =
      ⟨201, .cardDict ⟨db.next_card_id, m, lk.getD 0, bid⟩,
        { db with cards := db.cards ++ [⟨db.next_card_id, m, lk.getD 0, bid⟩],
                  next_card_id := db.next_card_id + 1 }⟩ := by
  simp [create_one_card, validate_models, findModel, hp, hb,
    create_model_card, Card.from_dict, Card.to_dict]

/-- C2 witness: posting to board 1 with body `board_id = 999` persists a
card whose `board_id` is 999. -/
theorem created_card_board_id_from_body_witness :
    pyInt "1" = some 1 ∧
    (⟨[⟨1, "B", "O"⟩], [], 2, 1⟩ : DBState).boards.find?
      (fun x => x.board_id == 1) = some ⟨1, "B", "O"⟩ ∧
    create_one_card "1" ⟨some "m", none, some 999⟩ ⟨[⟨1, "B", "O"⟩], [], 2, 1⟩ =
      ⟨201, .cardDict ⟨1, "m", 0, 999⟩,
        ⟨[⟨1, "B", "O"⟩], [⟨1, "m", 0, 999⟩], 2, 2⟩⟩ := by
  refine ⟨by decide, by decide, ?_⟩
  exact (created_card_board_id_from_body "1" ⟨[⟨1, "B", "O"⟩], [], 2, 1⟩ 1
    ⟨1, "B", "O"⟩ "m" none 999 (by decide) (by decide)).trans (by decide)

/-- C1 counterexample: with only board 1 in the store, posting to
`/boards/1/cards` a body whose `board_id` is 999 succeeds with 201 and
inserts a card whose `board_id` references no existing board — the API's
existence check (which inspects only the path id) does not enforce the
claimed invariant for the request body. -/
theorem create_card_body_board_unchecked_cex :
    (create_one_card "1" ⟨some "m", none, some 999⟩
      ⟨[⟨1, "B", "O"⟩], [], 2, 1⟩).status = 201 ∧
    ((create_one_card "1" ⟨some "m", none, some 999⟩
      ⟨[⟨1, "B", "O"⟩], [], 2, 1⟩).db.cards.map Card.board_id) = [999] ∧
    (∀ b ∈ (create_one_card "1" ⟨some "m", none, some 999⟩
      ⟨[⟨1, "B", "O"⟩], [], 2, 1⟩).db.boards, b.board_id ≠ 999) := by
  decide

/-- C1 (amended): the existence check before insertion guarantees only
that the PATH's board id references an existing board whenever a card is
created (201); the persisted card's `board_id`, taken from the body, is
not checked. -/
theorem create_card_201_path_board_exists (raw : String) (body : CardData)
    (db : DBState) (h : (create_one_card raw body db).status = 201) :
    ∃ n b, pyInt raw = some n ∧
      db.boards.find? (fun x => x.board_id == n) = some b := by
  cases hp : pyInt raw with
  | none =>
    rw [create_one_card] at h
    simp [validate_models, hp] at h
  | some n =>
    cases hb : db.boards.find? (fun x => x.board_id == n) with
    | none =>
      rw [create_one_card] at h
      simp [validate_models, findModel, hp, hb] at h
    | some b => exact ⟨n, b, rfl, hb⟩

/-- C1 (amended) witness: a 201 creation whose path board is then
exhibited. -/
theorem create_card_201_path_board_exists_witness :
    (create_one_card "1" ⟨some "m", none, some 1⟩
      ⟨[⟨1, "B", "O"⟩], [], 2, 1⟩).status = 201 ∧
    ∃ n b, pyInt "1" = some n ∧
      (⟨[⟨1, "B", "O"⟩], [], 2, 1⟩ : DBState).boards.find?
        (fun x => x.board_id == n) = some b :=
  ⟨by decide, create_card_201_path_board_exists "1" ⟨some "m", none, some 1⟩
    ⟨[⟨1, "B", "O"⟩], [], 2, 1⟩ (by decide)⟩

/-- C6: `Card.from_dict` builds the card from `{message, board_id}` with
`likes_count` defaulting to 0 when absent, and fails with a missing-field
error when `message` or `board_id` is absent; `create_model` turns any
such failure into 400 with the generic body `"Invalid data"` (the missing
field's name is not surfaced) and leaves the store unchanged, and on
success inserts the card and answers 201 with its serialization. -/
theorem create_model_card_spec (d : CardData) (db : DBState) :
    (∀ m bid, d.message = some m → d.board_id = some bid →
      Card.from_dict d = .ok ⟨m, d.likes_count.getD 0, bid⟩) ∧
    (∀ m bid, d.likes_count = none → d.message = some m → d.board_id = some bid →
      Card.from_dict d = .ok ⟨m, 0, bid⟩) ∧
    (d.message = none ∨ d.board_id = none →
      (∃ k, Card.from_dict d = .error k) ∧
      create_model_card d db = ⟨400, .message "Invalid data", db⟩) ∧
    (∀ nc, Card.from_dict d = .ok nc →
      create_model_card d db =
        ⟨201, .cardDict ⟨db.next_card_id, nc.message, nc.likes_count, nc.board_id⟩,
          { db with
              cards := db.cards ++
                [⟨db.next_card_id, nc.message, nc.likes_count, nc.board_id⟩],
              next_card_id := db.next_card_id + 1 }⟩) := by
  refine ⟨?_, ?_, ?_, ?_⟩
  · intro m bid hm hb
    simp [Card.from_dict, hm, hb]
  · intro m bid hl hm hb
    simp [Card.from_dict, hm, hb, hl]
  · intro hmiss
    cases hm : d.message with
    | none =>
      exact ⟨⟨"message", by simp [Card.from_dict, hm]⟩,
        by simp [create_model_card, Card.from_dict, hm]⟩
    | some m =>
      cases hb : d.board_id with
      | none =>
        exact ⟨⟨"board_id", by simp [Card.from_dict, hm, hb]⟩,
          by simp [create_model_card, Card.from_dict, hm, hb]⟩
      | some bid =>
        cases hmiss with
        | inl h => rw [hm] at h; cases h
        | inr h => rw [hb] at h; cases h
  · intro nc hnc
    simp [create_model_card, hnc, Card.to_dict]

/-- C6 witness: a body missing `board_id` is rejected 400 `"Invalid data"`;
a body without `likes_count` creates a card with `likes_count = 0`. -/
theorem create_model_card_spec_witness :
    ((⟨some "m", none, none⟩ : CardData).message = none ∨
      (⟨some "m", none, none⟩ : CardData).board_id = none) ∧
    create_model_card ⟨some "m", none, none⟩ ⟨[⟨1, "B", "O"⟩], [], 2, 1⟩ =
      ⟨400, .message "Invalid data", ⟨[⟨1, "B", "O"⟩], [], 2, 1⟩⟩ ∧
    Card.from_dict ⟨some "m", none, some 1⟩ = .ok ⟨"m", 0, 1⟩ :=
  ⟨Or.inr rfl,
    ((create_model_card_spec ⟨some "m", none, none⟩
      ⟨[⟨1, "B", "O"⟩], [], 2, 1⟩).2.2.1 (Or.inr rfl)).2,
    (create_model_card_spec ⟨some "m", none, some 1⟩
      ⟨[⟨1, "B", "O"⟩], [], 2, 1⟩).2.1 "m" 1 rfl rfl rfl⟩

/-- C7: `Board.to_dict` always carries `id`, `title`, `owner`; the `cards`
key is omitted (`none`) exactly when the board owns no cards, and
otherwise lists each owned card's serialization. -/
theorem board_to_dict_spec (db : DBState) (b : Board) :
    (Board.to_dict db b).id = b.board_id ∧
    (Board.to_dict db b).title = b.title ∧
    (Board.to_dict db b).owner = b.owner ∧
    (boardCards db b = [] → (Board.to_dict db b).cards = none) ∧
    (boardCards db b ≠ [] →
      (Board.to_dict db b).cards = some ((boardCards db b).map Card.to_dict)) := by
  refine ⟨rfl, rfl, rfl, ?_, ?_⟩
  · intro h
    simp [Board.to_dict, h]
  · intro h
    simp [Board.to_dict, List.isEmpty_iff, h]

/-- C7 witness: a board with no cards serializes without the `cards` key;
the same board with one card serializes with it. -/
theorem board_to_dict_spec_witness :
    boardCards ⟨[⟨1, "B", "O"⟩], [], 2, 1⟩ ⟨1, "B", "O"⟩ = [] ∧
    (Board.to_dict ⟨[⟨1, "B", "O"⟩], [], 2, 1⟩ ⟨1, "B", "O"⟩).cards = none ∧
    boardCards ⟨[⟨1, "B", "O"⟩], [⟨1, "m", 0, 1⟩], 2, 2⟩ ⟨1, "B", "O"⟩ ≠ [] ∧
    (Board.to_dict ⟨[⟨1, "B", "O"⟩], [⟨1, "m", 0, 1⟩], 2, 2⟩ ⟨1, "B", "O"⟩).cards =
      some [⟨1, "m", 0, 1⟩] :=
  ⟨by decide,
    (board_to_dict_spec ⟨[⟨1, "B", "O"⟩], [], 2, 1⟩ ⟨1, "B", "O"⟩).2.2.2.1 (by decide),
    by decide,
    ((board_to_dict_spec ⟨[⟨1, "B", "O"⟩], [⟨1, "m", 0, 1⟩], 2, 2⟩
      ⟨1, "B", "O"⟩).2.2.2.2 (by decide)).trans (by decide)⟩

/-- C3: `safe_delete` with `force = False` on a board owning `N ≥ 1` cards
fails, the error text contains `"N card(s)"` and `"force=True"`, and the
state is unchanged; with `force = True` it removes every owned card and
the board (keeping everything else); on a board with no owned cards it
removes the board whatever the flag, touching no card. -/
theorem safe_delete_spec (db : DBState) (b : Board) :
    (1 ≤ (boardCards db b).length →
      (Board.safe_delete db b false).1 = db ∧
      ∃ msg, (Board.safe_delete db b false).2 = some msg ∧
        strContainsSub msg (toString (boardCards db b).length ++ " card(s)") ∧
        strContainsSub msg "force=True") ∧
    ((Board.safe_delete db b true).2 = none ∧
      (∀ c ∈ (Board.safe_delete db b true).1.cards, c.board_id ≠ b.board_id) ∧
      (∀ c ∈ db.cards, c.board_id ≠ b.board_id →
        c ∈ (Board.safe_delete db b true).1.cards) ∧
      (∀ x ∈ (Board.safe_delete db b true).1.boards, x.board_id ≠ b.board_id) ∧
      (∀ x ∈ db.boards, x.board_id ≠ b.board_id →
        x ∈ (Board.safe_delete db b true).1.boards)) ∧
    (boardCards db b = [] → ∀ force,
      (Board.safe_delete db b force).2 = none ∧
      (∀ x ∈ (Board.safe_delete db b force).1.boards, x.board_id ≠ b.board_id) ∧
      (Board.safe_delete db b force).1.cards = db.cards) := by
  refine ⟨?_, ?_, ?_⟩
  · intro h
    have hE : (boardCards db b).isEmpty = false := by
      cases h' : boardCards db b with
      | nil => rw [h'] at h; simp at h
      | cons hd tl => simp [h']
    refine ⟨by simp [Board.safe_delete, hE], ?_⟩
    refine ⟨"Cannot delete board '" ++ b.title ++ "' because it has "
      ++ toString (boardCards db b).length
      ++ " card(s). Use force=True to delete the board and all its cards.",
      by simp [Board.safe_delete, hE], ?_, ?_⟩
    · refine ⟨"Cannot delete board '" ++ b.title ++ "' because it has ",
        ". Use force=True to delete the board and all its cards.", ?_⟩
      rw [show (" card(s). Use force=True to delete the board and all its cards." : String)
        = " card(s)" ++ ". Use force=True to delete the board and all its cards."
        from by decide]
      simp [String.append_assoc]
    · refine ⟨"Cannot delete board '" ++ b.title ++ "' because it has "
        ++ toString (boardCards db b).length ++ " card(s). Use ",
        " to delete the board and all its cards.", ?_⟩
      rw [show (" card(s). Use force=True to delete the board and all its cards." : String)
        = " card(s). Use " ++ "force=True" ++ " to delete the board and all its cards."
        from by decide]
      simp [String.append_assoc]
  · refine ⟨by simp [Board.safe_delete], ?_, ?_, ?_, ?_⟩
    · intro c hc
      simp [Board.safe_delete, List.mem_filter] at hc
      exact hc.2
    · intro c hc hne
      simp [Board.safe_delete, List.mem_filter]
      exact ⟨hc, hne⟩
    · intro x hx
      simp [Board.safe_delete, List.mem_filter] at hx
      exact hx.2
    · intro x hx hne
      simp [Board.safe_delete, List.mem_filter]
      exact ⟨hx, hne⟩
  · intro hcs force
    have hE : (boardCards db b).isEmpty = true := by
      rw [List.isEmpty_iff]
      exact hcs
    refine ⟨by simp [Board.safe_delete, hE], ?_, ?_⟩
    · intro x hx
      simp [Board.safe_delete, hE, List.mem_filter] at hx
      exact hx.2
    · have hall : ∀ c ∈ db.cards, ¬ (fun c => c.board_id == b.board_id) c :=
        List.filter_eq_nil_iff.mp hcs
      have : db.cards.filter (fun c => !(c.board_id == b.board_id)) = db.cards := by
        refine List.filter_eq_self.mpr ?_
        intro a ha
        simp
        have := hall a ha
        simpa using this
      simp [Board.safe_delete, hE, this]

/-- C3 witness: a board with one card refuses the unforced delete with the
documented message and unchanged state, and an empty board deletes without
force. -/
theorem safe_delete_spec_witness :
    1 ≤ (boardCards ⟨[⟨1, "B", "O"⟩], [⟨1, "m", 0, 1⟩], 2, 2⟩ ⟨1, "B", "O"⟩).length ∧
    ((Board.safe_delete ⟨[⟨1, "B", "O"⟩], [⟨1, "m", 0, 1⟩], 2, 2⟩
        ⟨1, "B", "O"⟩ false).1 = ⟨[⟨1, "B", "O"⟩], [⟨1, "m", 0, 1⟩], 2, 2⟩ ∧
      ∃ msg, (Board.safe_delete ⟨[⟨1, "B", "O"⟩], [⟨1, "m", 0, 1⟩], 2, 2⟩
          ⟨1, "B", "O"⟩ false).2 = some msg ∧
        strContainsSub msg (toString (boardCards ⟨[⟨1, "B", "O"⟩],
          [⟨1, "m", 0, 1⟩], 2, 2⟩ ⟨1, "B", "O"⟩).length ++ " card(s)") ∧
        strContainsSub msg "force=True") ∧
    boardCards ⟨[⟨1, "B", "O"⟩], [], 2, 1⟩ ⟨1, "B", "O"⟩ = [] ∧
    (Board.safe_delete ⟨[⟨1, "B", "O"⟩], [], 2, 1⟩ ⟨1, "B", "O"⟩ false).2 = none :=
  ⟨by decide,
    (safe_delete_spec ⟨[⟨1, "B", "O"⟩], [⟨1, "m", 0, 1⟩], 2, 2⟩ ⟨1, "B", "O"⟩).1
      (by decide),
    by decide,
    ((safe_delete_spec ⟨[⟨1, "B", "O"⟩], [], 2, 1⟩ ⟨1, "B", "O"⟩).2.2
      (by decide) false).1⟩

/-- Looking a card up after `incLikes` on its id finds it with
`likes_count` bumped by one. -/
theorem find?_incLikes (n : Int) (l : List Card) (c : Card)
    (h : l.find? (fun x => x.card_id == n) = some c) :
    (incLikes n l).find? (fun x => x.card_id == n) =
      some { c with likes_count := c.likes_count + 1 } := by
  induction l with
  | nil => cases h
  | cons hd tl ih =>
    cases hpd : (hd.card_id == n) with
    | true =>
      have hfc : (hd :: tl).find? (fun x => x.card_id == n) = some hd :=
        List.find?_cons_of_pos tl hpd
      rw [hfc] at h
      injection h with h
      subst h
      simp only [incLikes]
      rw [if_pos hpd]
      exact List.find?_cons_of_pos tl hpd
    | false =>
      have hfc : (hd :: tl).find? (fun x => x.card_id == n) =
          tl.find? (fun x => x.card_id == n) :=
        List.find?_cons_of_neg tl (by simp [hpd])
      rw [hfc] at h
      simp only [incLikes]
      rw [if_neg (by simp [hpd])]
      have hfc2 : (hd :: incLikes n tl).find? (fun x => x.card_id == n) =
          (incLikes n tl).find? (fun x => x.card_id == n) :=
        List.find?_cons_of_neg _ (by simp [hpd])
      rw [hfc2]
      exact ih h

/-- After `removeFirstCard` on an id that occurred at most once, no card
with that id remains to be found. -/
theorem find?_removeFirstCard (n : Int) (l : List Card) (c : Card)
    (h : l.find? (fun x => x.card_id == n) = some c)
    (hu : (l.filter (fun x => x.card_id == n)).length ≤ 1) :
    (removeFirstCard n l).find? (fun x => x.card_id == n) = none := by
  induction l with
  | nil => cases h
  | cons hd tl ih =>
    cases hpd : (hd.card_id == n) with
    | true =>
      simp only [removeFirstCard]
      rw [if_pos hpd]
      have hflt : (hd :: tl).filter (fun x => x.card_id == n) =
          hd :: tl.filter (fun x => x.card_id == n) := by
        simp [List.filter_cons, hpd]
      rw [hflt] at hu
      simp only [List.length_cons] at hu
      have hnil : tl.filter (fun x => x.card_id == n) = [] :=
        List.length_eq_zero.mp (by omega)
      exact List.find?_eq_none.mpr (List.filter_eq_nil_iff.mp hnil)
    | false =>
      have hfc : (hd :: tl).find? (fun x => x.card_id == n) =
          tl.find? (fun x => x.card_id == n) :=
        List.find?_cons_of_neg tl (by simp [hpd])
      rw [hfc] at h
      have hflt : (hd :: tl).filter (fun x => x.card_id == n) =
          tl.filter (fun x => x.card_id == n) := by
        simp [List.filter_cons, hpd]
      rw [hflt] at hu
      simp only [removeFirstCard]
      rw [if_neg (by simp [hpd])]
      have hfc2 : (hd :: removeFirstCard n tl).find? (fun x => x.card_id == n) =
          (removeFirstCard n tl).find? (fun x => x.card_id == n) :=
        List.find?_cons_of_neg _ (by simp [hpd])
      rw [hfc2]
      exact ih h hu

/-- C8: a `PUT /cards/{id}/likes` on an existing card answers 200 with
the serialization showing `likes_count + 1` and stores the incremented
count; the operation is not idempotent — three successive calls on a card
whose count is 0 report 1, then 2, then 3. -/
theorem update_card_likes_spec (raw : String) (db : DBState) (n : Int) (c : Card)
    (hp : pyInt raw = some n)
    (hfind : db.cards.find? (fun x => x.card_id == n) = some c) :
    update_card_likes raw db =
      ⟨200, .cardDict ⟨c.card_id, c.message, c.likes_count + 1, c.board_id⟩,
        { db with cards := incLikes c.card_id db.cards }⟩ ∧
    (c.likes_count = 0 →
      (update_card_likes raw db).status = 200 ∧
      (update_card_likes raw db).body =
        .cardDict ⟨c.card_id, c.message, 1, c.board_id⟩ ∧
      (update_card_likes raw (update_card_likes raw db).db).status = 200 ∧
      (update_card_likes raw (update_card_likes raw db).db).body =
        .cardDict ⟨c.card_id, c.message, 2, c.board_id⟩ ∧
      (update_card_likes raw (update_card_likes raw
        (update_card_likes raw db).db).db).status = 200 ∧
      (update_card_likes raw (update_card_likes raw
        (update_card_likes raw db).db).db).body =
        .cardDict ⟨c.card_id, c.message, 3, c.board_id⟩) := by
  have hcn : c.card_id = n := by
    have := List.find?_some hfind
    simpa using this
  subst hcn
  have h1 : update_card_likes raw db =
      ⟨200, .cardDict ⟨c.card_id, c.message, c.likes_count + 1, c.board_id⟩,
        { db with cards := incLikes c.card_id db.cards }⟩ := by
    simp [update_card_likes, validate_models, findModel, hp, hfind]
  have hfind1 : (incLikes c.card_id db.cards).find? (fun x => x.card_id == c.card_id) =
      some { c with likes_count := c.likes_count + 1 } :=
    find?_incLikes c.card_id db.cards c hfind
  have h2 : update_card_likes raw { db with cards := incLikes c.card_id db.cards } =
      ⟨200, .cardDict ⟨c.card_id, c.message, c.likes_count + 1 + 1, c.board_id⟩,
        { db with cards := incLikes c.card_id (incLikes c.card_id db.cards) }⟩ := by
    simp [update_card_likes, validate_models, findModel, hp, hfind1]
  have hfind2 : (incLikes c.card_id (incLikes c.card_id db.cards)).find?
      (fun x => x.card_id == c.card_id) =
      some { c with likes_count := c.likes_count + 1 + 1 } :=
    find?_incLikes c.card_id (incLikes c.card_id db.cards) _ hfind1
  have h3 : update_card_likes raw
      { db with cards := incLikes c.card_id (incLikes c.card_id db.cards) } =
      ⟨200, .cardDict ⟨c.card_id, c.message, c.likes_count + 1 + 1 + 1, c.board_id⟩,
        { db with cards :=
          incLikes c.card_id (incLikes c.card_id (incLikes c.card_id db.cards)) }⟩ := by
    simp [update_card_likes, validate_models, findModel, hp, hfind2]
  refine ⟨h1, fun h0 => ?_⟩
  rw [h1, h2, h3, h0]
  refine ⟨rfl, by norm_num, rfl, by norm_num, rfl, by norm_num⟩

/-- C8 witness: three likes on a fresh card report 1, 2, 3. -/
theorem update_card_likes_spec_witness :
    pyInt "1" = some 1 ∧
    (⟨[⟨1, "B", "O"⟩], [⟨1, "m", 0, 1⟩], 2, 2⟩ : DBState).cards.find?
      (fun x => x.card_id == 1) = some ⟨1, "m", 0, 1⟩ ∧
    (update_card_likes "1" ⟨[⟨1, "B", "O"⟩], [⟨1, "m", 0, 1⟩], 2, 2⟩).body =
      .cardDict ⟨1, "m", 1, 1⟩ ∧
    (update_card_likes "1" (update_card_likes "1"
      ⟨[⟨1, "B", "O"⟩], [⟨1, "m", 0, 1⟩], 2, 2⟩).db).body =
      .cardDict ⟨1, "m", 2, 1⟩ ∧
    (update_card_likes "1" (update_card_likes "1" (update_card_likes "1"
      ⟨[⟨1, "B", "O"⟩], [⟨1, "m", 0, 1⟩], 2, 2⟩).db).db).body =
      .cardDict ⟨1, "m", 3, 1⟩ :=
  ⟨by decide, by decide,
    ((update_card_likes_spec "1" ⟨[⟨1, "B", "O"⟩], [⟨1, "m", 0, 1⟩], 2, 2⟩ 1
      ⟨1, "m", 0, 1⟩ (by decide) (by decide)).2 rfl).2.1,
    ((update_card_likes_spec "1" ⟨[⟨1, "B", "O"⟩], [⟨1, "m", 0, 1⟩], 2, 2⟩ 1
      ⟨1, "m", 0, 1⟩ (by decide) (by decide)).2 rfl).2.2.2.1,
    ((update_card_likes_spec "1" ⟨[⟨1, "B", "O"⟩], [⟨1, "m", 0, 1⟩], 2, 2⟩ 1
      ⟨1, "m", 0, 1⟩ (by decide) (by decide)).2 rfl).2.2.2.2.2⟩

/-- C9: a `DELETE /cards/{id}` on an existing card (ids being unique)
answers 200 with `{"message": "Card {id} deleted successfully"}` and
removes the card; immediately repeating the same delete answers 404 with
the not-found body and changes nothing. -/
theorem delete_card_spec (raw : String) (db : DBState) (n : Int) (c : Card)
    (hp : pyInt raw = some n)
    (hfind : db.cards.find? (fun x => x.card_id == n) = some c)
    (hu : (db.cards.filter (fun x => x.card_id == n)).length ≤ 1) :
    delete_card raw db =
      ⟨200, .message ("Card " ++ raw ++ " deleted successfully"),
        { db with cards := removeFirstCard c.card_id db.cards }⟩ ∧
    c ∉ (delete_card raw db).db.cards ∧
    delete_card raw (delete_card raw db).db =
      ⟨404, .message ("Card with ID " ++ toString n ++ " not found."),
        (delete_card raw db).db⟩ := by
  have hcn : c.card_id = n := by
    have := List.find?_some hfind
    simpa using this
  subst hcn
  have h1 : delete_card raw db =
      ⟨200, .message ("Card " ++ raw ++ " deleted successfully"),
        { db with cards := removeFirstCard c.card_id db.cards }⟩ := by
    simp [delete_card, validate_models, findModel, hp, hfind]
  have hnone : (removeFirstCard c.card_id db.cards).find?
      (fun x => x.card_id == c.card_id) = none :=
    find?_removeFirstCard c.card_id db.cards c hfind hu
  refine ⟨h1, ?_, ?_⟩
  · rw [h1]
    intro hc
    have := List.find?_eq_none.mp hnone c hc
    simp at this
  · rw [h1]
    simp only [delete_card, validate_models, findModel, hp, hnone]
    rw [show (Entity.card.clsName ++ " with ID " : String) = "Card with ID " from by decide]
    simp

/-- C9 witness: deleting card 1 answers 200 and removes it; repeating the
delete answers 404. -/
theorem delete_card_spec_witness :
    pyInt "1" = some 1 ∧
    (⟨[⟨1, "B", "O"⟩], [⟨1, "m", 0, 1⟩], 2, 2⟩ : DBState).cards.find?
      (fun x => x.card_id == 1) = some ⟨1, "m", 0, 1⟩ ∧
    ((⟨[⟨1, "B", "O"⟩], [⟨1, "m", 0, 1⟩], 2, 2⟩ : DBState).cards.filter
      (fun x => x.card_id == 1)).length ≤ 1 ∧
    delete_card "1" ⟨[⟨1, "B", "O"⟩], [⟨1, "m", 0, 1⟩], 2, 2⟩ =
      ⟨200, .message "Card 1 deleted successfully", ⟨[⟨1, "B", "O"⟩], [], 2, 2⟩⟩ ∧
    delete_card "1" (delete_card "1"
      ⟨[⟨1, "B", "O"⟩], [⟨1, "m", 0, 1⟩], 2, 2⟩).db =
      ⟨404, .message "Card with ID 1 not found.", ⟨[⟨1, "B", "O"⟩], [], 2, 2⟩⟩ := by
  refine ⟨by decide, by decide, by decide, ?_, ?_⟩
  · exact ((delete_card_spec "1" ⟨[⟨1, "B", "O"⟩], [⟨1, "m", 0, 1⟩], 2, 2⟩ 1
      ⟨1, "m", 0, 1⟩ (by decide) (by decide) (by decide)).1).trans (by decide)
  · exact ((delete_card_spec "1" ⟨[⟨1, "B", "O"⟩], [⟨1, "m", 0, 1⟩], 2, 2⟩ 1
      ⟨1, "m", 0, 1⟩ (by decide) (by decide) (by decide)).2.2).trans (by decide)

end InspirationBoard
